import Mathlib

/-!
Shallow embedding of the SSO core of `src/main.py` (NiceGUI SSO demo):
`PublicKeyManager`, `TokenValidator._validate_token_logic`,
`SessionManager` (set/clear session and the token-refresh loop).

External effects (network fetches, file-system cache, the remote
session-data endpoint, clock) are modelled by explicit environment
records; mutable object state is threaded as explicit state values.
Exceptions raised by library calls (`jwt.decode`, `httpx`, cache I/O)
are modelled as tagged results, mirroring the `except` clauses of the
source one for one.
-/

namespace SSODemo

/-- The claim set carried by the portal's minimal JWT
(`sub, jti, email, iss, aud, iat, exp`, per the token fixtures in
`src/test_example.py`). `iat`/`exp` are POSIX seconds. -/
structure MinimalClaims where
  iss : String
  aud : String
  iat : Nat
  exp : Nat
  jti : String
  sub : String
  email : String
  deriving DecidableEq, Repr

/-- The JSON object returned by the portal's session-data endpoint, and
also the shape of the dictionary `validate_token` returns: the profile
fields the portal supplies plus the five JWT claims, each optional
because a JSON body need not carry them (`dict.get` semantics). -/
structure SessionData where
  iss : Option String
  aud : Option String
  iat : Option Nat
  exp : Option Nat
  jti : Option String
  email : Option String
  name : Option String
  profile : Option String
  permissions : List String
  deriving DecidableEq, Repr

/-- Model of `full_payload.update({'iss': ..., 'aud': ..., 'iat': ..., 'exp': ...,
'jti': ...})` at src/main.py:224-230: overwrite the five JWT claims of a
session-data payload with the values from the locally decoded token. -/
def mergeClaims (d : SessionData) (c : MinimalClaims) : SessionData :=
  { d with
    iss := some c.iss
    aud := some c.aud
    iat := some c.iat
    exp := some c.exp
    jti := some c.jti }

/-- A bearer token string together with its parse data: `raw` is the
string the code tests with `if not token`; `wellFormed` is false when
`jwt.decode` raises `DecodeError` (malformed JWT); `signedWith` is the
public key under which the RS256 signature verifies. -/
structure Tok where
  raw : String
  wellFormed : Bool
  signedWith : String
  claims : MinimalClaims
  deriving DecidableEq, Repr

/-- Outcome of `jwt.decode(token, key, algorithms=['RS256'],
audience=..., options={'verify_exp': True})`, tagged by the exception
class PyJWT raises. `sigOrDecodeError` covers both
`jwt.InvalidSignatureError` and `jwt.DecodeError`, which src/main.py:239
catches with a single clause. -/
inductive DecodeResult where
  | ok
  | sigOrDecodeError
  | expired
  | badAudience
  deriving DecidableEq, Repr

/-- PyJWT's check order: segment/signature verification first
(`DecodeError`/`InvalidSignatureError`), then `exp`
(`ExpiredSignatureError`), then `aud` (`InvalidAudienceError`). -/
def jwtDecode (tok : Tok) (key : String) (now : Nat) (audience : String) :
    DecodeResult :=
  if tok.wellFormed = false then .sigOrDecodeError
  else if tok.signedWith ≠ key then .sigOrDecodeError
  else if tok.claims.exp ≤ now then .expired
  else if tok.claims.aud ≠ audience then .badAudience
  else .ok

/-- Environment of `PublicKeyManager`: `fetchResult n` is the outcome of
the n-th HTTP GET of the public-key endpoint (`none` = network error or
non-2xx, i.e. the `except` at src/main.py:116 fires); `readCacheOk`
says whether `PUBLIC_KEY_PATH.read_text()` succeeds; `writeCacheOk`
whether `PUBLIC_KEY_PATH.write_text(...)` succeeds. -/
structure KeyEnv where
  fetchResult : Nat → Option String
  readCacheOk : Bool
  writeCacheOk : Bool

/-- State of `PublicKeyManager` plus its durable cache file: `mem` is
`self._public_key`, `file` the content of `cache/portal_public.pem`
(`none` = file missing), `fetchCount` counts HTTP fetch attempts. -/
structure KeyState where
  mem : Option String
  file : Option String
  fetchCount : Nat
  deriving DecidableEq, Repr

/-- Python truthiness of `self._public_key` (src/main.py:84): `None` and
the empty string are both falsy. -/
def memTruthy : Option String → Bool
  | some s => s ≠ ""
  | none => false

/-- The download branch of `get_public_key` (src/main.py:97-119): fetch
from the portal; on success store in memory, best-effort write the cache
file (write failure only logged), return the key; on failure raise
`RuntimeError` (modelled as `Except.error ()`). -/
def keyDownload (env : KeyEnv) (st : KeyState) :
    Except Unit String × KeyState :=
  match env.fetchResult st.fetchCount with
  | some k =>
    let st1 : KeyState :=
      { mem := some k
        file := if env.writeCacheOk then some k else st.file
        fetchCount := st.fetchCount + 1 }
    (.ok k, st1)
  | none => (.error (), { st with fetchCount := st.fetchCount + 1 })

/-- Model of `PublicKeyManager.get_public_key` (src/main.py:77-119): serve the
in-memory key when present (and truthy) unless `force_refresh`; else try
the cache file (again only when not forced); else download. -/
def getPublicKey (env : KeyEnv) (st : KeyState) (forceRefresh : Bool) :
    Except Unit String × KeyState :=
  if memTruthy st.mem ∧ forceRefresh = false then
    (.ok ((st.mem).getD ""), st)
  else if forceRefresh = false then
    match st.file with
    | some c =>
      if env.readCacheOk then (.ok c, { st with mem := some c })
      else keyDownload env st
    | none => keyDownload env st
  else keyDownload env st

/-- Model of `PublicKeyManager.invalidate_cache` (src/main.py:121-126): drop the
in-memory key; delete the cache file only if it exists (so a missing
file is not an error). Total: it never fails. -/
def invalidateCache (st : KeyState) : KeyState :=
  let st1 : KeyState := { st with mem := none }
  match st1.file with
  | some _ => { st1 with file := none }
  | none => st1

/-- Environment of one `_validate_token_logic` call: the key
environment, the current POSIX time, the configured `APP_AUDIENCE`, and
the behaviour of the session-data endpoint (`netOk` = the POST
completes without `httpx.RequestError`; `status` its HTTP status;
`jsonBody` the parse result of `response.json()`, `none` = parse
error). -/
structure ValidateEnv where
  keyEnv : KeyEnv
  now : Nat
  audience : String
  netOk : Bool
  status : Nat
  jsonBody : Option SessionData

/-- State threaded through validation: the key manager's state plus a
count of POSTs attempted against the session-data endpoint. -/
structure VState where
  ks : KeyState
  remoteCalls : Nat
  deriving DecidableEq, Repr

/-- PASO 2 of `_validate_token_logic` (src/main.py:180-237): POST
`{jti, email}` to the session-data endpoint. Network error → caught at
line 257, `None`. Non-200 → `None`. Unparsable JSON → `None`. Parsed
body → the body with the five locally verified claims overlaid. -/
def remoteStep (env : ValidateEnv) (claims : MinimalClaims) (vs : VState) :
    Option SessionData × VState :=
  let vs1 : VState := { vs with remoteCalls := vs.remoteCalls + 1 }
  if env.netOk = false then (none, vs1)
  else if env.status ≠ 200 then (none, vs1)
  else
    match env.jsonBody with
    | none => (none, vs1)
    | some d => (some (mergeClaims d claims), vs1)

/-- Outcome of one pass through the `try` body of
`_validate_token_logic`: a returned payload, a `return None` from any
handler other than the signature one, or the
`(InvalidSignatureError, DecodeError)` handler at src/main.py:239. -/
inductive AttemptOut where
  | payload (d : SessionData)
  | noneOut
  | sigErr
  deriving DecidableEq, Repr

/-- One pass through the `try` body of `_validate_token_logic`
(src/main.py:160-265) with a given `force_refresh_key`:
get the public key (a raised `RuntimeError` lands in the catch-all at
line 261 → `None`); decode the token (signature/decode error → the
retry handler; expired or bad audience → `None`); on local success run
the remote step. -/
def validateAttempt (env : ValidateEnv) (tok : Tok) (force : Bool)
    (vs : VState) : AttemptOut × VState :=
  match getPublicKey env.keyEnv vs.ks force with
  | (.error _, ks1) => (.noneOut, { vs with ks := ks1 })
  | (.ok key, ks1) =>
    let vs1 : VState := { vs with ks := ks1 }
    match jwtDecode tok key env.now env.audience with
    | .sigOrDecodeError => (.sigErr, vs1)
    | .expired => (.noneOut, vs1)
    | .badAudience => (.noneOut, vs1)
    | .ok =>
      match remoteStep env tok.claims vs1 with
      | (some d, vs2) => (.payload d, vs2)
      | (none, vs2) => (.noneOut, vs2)

/-- Model of `TokenValidator._validate_token_logic` entered with
`force_refresh_key=False` — i.e. `TokenValidator.validate_token`
(src/main.py:140-265). Empty token → `None` before anything else. A
signature/decode failure on the first attempt recurses once with
`force_refresh_key=True`; in that second attempt the signature handler
returns `None` instead of recursing again. Every exception is caught
inside, so the function always returns a value. -/
def validateToken (env : ValidateEnv) (tok : Tok) (vs : VState) :
    Option SessionData × VState :=
  if tok.raw = "" then (none, vs)
  else
    match validateAttempt env tok false vs with
    | (.payload d, vs1) => (some d, vs1)
    | (.noneOut, vs1) => (none, vs1)
    | (.sigErr, vs1) =>
      match validateAttempt env tok true vs1 with
      | (.payload d, vs2) => (some d, vs2)
      | (.noneOut, vs2) => (none, vs2)
      | (.sigErr, vs2) => (none, vs2)

/-- The keys `SessionManager` keeps in `app.storage.user` (per
browser-session storage): `sso_token`, `user_data`, `login_time`.
`app.storage.user.clear()` empties all three. -/
structure Storage where
  ssoToken : Option String
  userData : Option SessionData
  loginTime : Option String
  deriving DecidableEq, Repr

/-- An `app.storage.user` with no keys set. -/
def emptyStorage : Storage :=
  { ssoToken := none, userData := none, loginTime := none }

/-- Whole-process state around `SessionManager`: `storages c` is
connection `c`'s `app.storage.user` (NiceGUI scopes that per browser
session), while `taskAlive` is the single `_refresh_task` slot of the
one module-level `session_manager` instance (src/main.py:434-435) —
shared by every connection. `nextTask` numbers created asyncio tasks;
`cancelledTasks` records the ids on which `.cancel()` was called. -/
structure ProcState where
  storages : Nat → Storage
  taskAlive : Option Nat
  nextTask : Nat
  cancelledTasks : List Nat

/-- Point update of the per-connection storage map. -/
def setStore (c : Nat) (s : Storage) (f : Nat → Storage) : Nat → Storage :=
  fun c' => if c' = c then s else f c'

/-- Model of `SessionManager.get_current_token` (src/main.py:359-361), read in
connection `c`'s context. -/
def getCurrentToken (c : Nat) (p : ProcState) : Option String :=
  (p.storages c).ssoToken

/-- Model of `SessionManager.get_current_user` (src/main.py:355-357), read in
connection `c`'s context. -/
def getCurrentUser (c : Nat) (p : ProcState) : Option SessionData :=
  (p.storages c).userData

/-- Model of `SessionManager.start_token_refresh` (src/main.py:389-431): cancel
the task in the manager's single `_refresh_task` slot if one is there,
then create a fresh `refresh_loop` task and store it in that slot. -/
def startTokenRefresh (p : ProcState) : ProcState :=
  let p1 : ProcState :=
    match p.taskAlive with
    | some t => { p with taskAlive := none, cancelledTasks := t :: p.cancelledTasks }
    | none => p
  { p1 with taskAlive := some p1.nextTask, nextTask := p1.nextTask + 1 }

/-- Model of `SessionManager.set_session` (src/main.py:363-378) run in connection
`c`'s context: store token, user data and login time in that
connection's storage, then `start_token_refresh`. -/
def setSession (c : Nat) (token : String) (userData : SessionData)
    (loginTime : String) (p : ProcState) : ProcState :=
  let st := p.storages c
  let st1 : Storage :=
    { st with ssoToken := some token, userData := some userData,
              loginTime := some loginTime }
  startTokenRefresh { p with storages := setStore c st1 p.storages }

/-- Model of `SessionManager.clear_session` (src/main.py:380-387) run in
connection `c`'s context: if the manager holds a refresh task, cancel
it and null the slot; then `app.storage.user.clear()`. Total: clearing
an already-empty session does nothing and cannot fail. -/
def clearSession (c : Nat) (p : ProcState) : ProcState :=
  let p1 : ProcState :=
    match p.taskAlive with
    | some t =>
      { p with taskAlive := none, cancelledTasks := t :: p.cancelledTasks }
    | none => p
  { p1 with storages := setStore c emptyStorage p1.storages }

/-- Environment of one iteration of `refresh_loop`
(src/main.py:394-428): whether the task was cancelled during the sleep
(`asyncio.CancelledError`), whether reading the session storage raises
(any non-cancellation exception in the body lands in the generic
handler at line 426), the result of `TokenValidator.refresh_token`
(`none` = refresh failed) and of `TokenValidator.validate_token` on the
refreshed token (`none` = verification failed). -/
structure TickEnv where
  cancelled : Bool
  storageReadOk : Bool
  refreshResult : Option String
  validateResult : Option SessionData

/-- Whether the loop runs another iteration (`while True` continues) or
the task finishes (`break`). -/
inductive TickOut where
  | next
  | stop
  deriving DecidableEq, Repr

/-- One iteration of `refresh_loop` for the session of connection `c`
(src/main.py:396-428): sleep (cancellation observed here → break);
read the current token (an exception here → generic handler → break,
nothing cleared); no token → break; refresh; refresh failure →
`clear_session` and break; verification failure of the new token →
`clear_session` and break; success → install the new token and user
data and loop. -/
def refreshTick (env : TickEnv) (c : Nat) (p : ProcState) :
    TickOut × ProcState :=
  if env.cancelled then (.stop, p)
  else if env.storageReadOk = false then (.stop, p)
  else
    match getCurrentToken c p with
    | none => (.stop, p)
    | some _ =>
      match env.refreshResult with
      | none => (.stop, clearSession c p)
      | some newToken =>
        match env.validateResult with
        | none => (.stop, clearSession c p)
        | some ud =>
          let st := p.storages c
          let st1 : Storage :=
            { st with ssoToken := some newToken, userData := some ud }
          (.next, { p with storages := setStore c st1 p.storages })

/-- A process state before any login: no sessions, no refresh task. -/
def procInit : ProcState :=
  { storages := fun _ => emptyStorage
    taskAlive := none
    nextTask := 0
    cancelledTasks := [] }

/-! ### Helper lemmas -/

/-- A forced `get_public_key` skips both the in-memory and the on-disk
cache and goes straight to the download branch. -/
theorem getPublicKey_force (env : KeyEnv) (st : KeyState) :
    getPublicKey env st true = keyDownload env st := by
  simp [getPublicKey]

/-- A download that returns a key consumed exactly one fetch attempt,
and that key is what the network returned. -/
theorem keyDownload_ok (env : KeyEnv) (st : KeyState) (k : String)
    (st2 : KeyState) (h : keyDownload env st = (Except.ok k, st2)) :
    st2.fetchCount = st.fetchCount + 1 ∧
      env.fetchResult st.fetchCount = some k := by
  cases hf : env.fetchResult st.fetchCount <;>
    simp [keyDownload, hf] at h
  obtain ⟨h1, h2⟩ := h
  subst h1; subst h2
  simp [hf]

/-- Updating the same connection's storage twice with the same value is
one update. -/
theorem setStore_idem (c : Nat) (s : Storage) (f : Nat → Storage) :
    setStore c s (setStore c s f) = setStore c s f := by
  funext c'
  by_cases h : c' = c <;> simp [setStore, h]

/-! ### Concrete fixtures used by witnesses and counterexamples -/

/-- Claims of a token the portal would mint (mirrors the `valid_token`
fixture of `src/test_example.py`). -/
def claimsA : MinimalClaims :=
  { iss := "portal", aud := "nicegui-demo", iat := 50, exp := 200,
    jti := "jti-1", sub := "123", email := "u@example.com" }

/-- A well-formed token verifying under key `PEM-A`. -/
def tokGood : Tok :=
  { raw := "tok-good", wellFormed := true, signedWith := "PEM-A",
    claims := claimsA }

/-- A well-formed token verifying only under the rotated key `PEM-B`. -/
def tokRotated : Tok :=
  { raw := "tok-rot", wellFormed := true, signedWith := "PEM-B",
    claims := claimsA }

/-- A token verifying under no key the key store can produce here. -/
def tokForged : Tok :=
  { raw := "tok-forged", wellFormed := true, signedWith := "PEM-X",
    claims := claimsA }

/-- A token signed with `PEM-A` whose `exp` is in the past. -/
def tokExpired : Tok :=
  { raw := "tok-exp", wellFormed := true, signedWith := "PEM-A",
    claims := { claimsA with exp := 90, jti := "jti-exp" } }

/-- A session-data response that tries to smuggle its own values for the
five JWT claims. -/
def remoteBody : SessionData :=
  { iss := some "spoof-iss", aud := some "spoof-aud", iat := some 1,
    exp := some 2, jti := some "spoof-jti", email := some "u@example.com",
    name := some "User", profile := some "Dev", permissions := ["app1"] }

/-- A healthy key endpoint: every fetch returns `PEM-B`; cache file
reads and writes succeed. -/
def kenvA : KeyEnv :=
  { fetchResult := fun _ => some "PEM-B", readCacheOk := true,
    writeCacheOk := true }

/-- A dead key endpoint: every fetch fails. -/
def kenvBad : KeyEnv :=
  { fetchResult := fun _ => none, readCacheOk := true,
    writeCacheOk := true }

/-- A validation environment with healthy key endpoint and a
200/parsable session-data endpoint answering `remoteBody`. -/
def envA : ValidateEnv :=
  { keyEnv := kenvA, now := 100, audience := "nicegui-demo",
    netOk := true, status := 200, jsonBody := some remoteBody }

/-- Same as `envA` but the key endpoint is down. -/
def envBad : ValidateEnv :=
  { keyEnv := kenvBad, now := 100, audience := "nicegui-demo",
    netOk := true, status := 200, jsonBody := some remoteBody }

/-- Validator state with `PEM-A` cached in memory and no cache file. -/
def vsA : VState :=
  { ks := { mem := some "PEM-A", file := none, fetchCount := 0 },
    remoteCalls := 0 }

/-- Validator state with no key cached anywhere. -/
def vsEmpty : VState :=
  { ks := { mem := none, file := none, fetchCount := 0 },
    remoteCalls := 0 }

/-! ### Claims -/

/-- C10: for an empty token string, `validate_token` returns `None`
before any key retrieval, local decode, or network call — the state
(fetch count, remote-call count, key cache) is returned untouched. -/
theorem c10_empty_token_rejected_without_effects :
    ∀ (env : ValidateEnv) (vs : VState) (w : Bool) (s : String)
      (c : MinimalClaims),
    validateToken env { raw := "", wellFormed := w, signedWith := s,
                        claims := c } vs = (none, vs) := by
  intro env vs w s c
  simp [validateToken]

/-- C1: whenever local verification succeeds (key retrieved, signature,
expiry and audience checks pass) and the remote session-data lookup
returns HTTP 200 with a parsable body `d` — whatever values `d` carries
— `validate_token` returns `d` with the five claims `iss, aud, iat,
exp, jti` overwritten by those of the locally decoded token. -/
theorem c1_session_claims_come_from_local_token :
    ∀ (env : ValidateEnv) (tok : Tok) (vs : VState) (key : String)
      (ks1 : KeyState) (d : SessionData),
    tok.raw ≠ "" →
    getPublicKey env.keyEnv vs.ks false = (Except.ok key, ks1) →
    jwtDecode tok key env.now env.audience = DecodeResult.ok →
    env.netOk = true → env.status = 200 → env.jsonBody = some d →
    validateToken env tok vs
        = (some (mergeClaims d tok.claims),
           { ks := ks1, remoteCalls := vs.remoteCalls + 1 })
      ∧ (mergeClaims d tok.claims).iss = some tok.claims.iss
      ∧ (mergeClaims d tok.claims).aud = some tok.claims.aud
      ∧ (mergeClaims d tok.claims).iat = some tok.claims.iat
      ∧ (mergeClaims d tok.claims).exp = some tok.claims.exp
      ∧ (mergeClaims d tok.claims).jti = some tok.claims.jti := by
  intro env tok vs key ks1 d hraw hget hdec hnet hstat hjson
  refine ⟨?_, rfl, rfl, rfl, rfl, rfl⟩
  simp [validateToken, hraw, validateAttempt, hget, hdec, remoteStep,
        hnet, hstat, hjson]

/-- C1 witness: a concrete run in which the remote body carries
conflicting values for all five claims, which end up discarded. -/
theorem c1_session_claims_come_from_local_token_witness :
    validateToken envA tokGood vsA
        = (some (mergeClaims remoteBody tokGood.claims),
           { ks := { mem := some "PEM-A", file := none, fetchCount := 0 },
             remoteCalls := 1 })
      ∧ (mergeClaims remoteBody tokGood.claims).iss = some tokGood.claims.iss
      ∧ (mergeClaims remoteBody tokGood.claims).aud = some tokGood.claims.aud
      ∧ (mergeClaims remoteBody tokGood.claims).iat = some tokGood.claims.iat
      ∧ (mergeClaims remoteBody tokGood.claims).exp = some tokGood.claims.exp
      ∧ (mergeClaims remoteBody tokGood.claims).jti = some tokGood.claims.jti :=
  c1_session_claims_come_from_local_token envA tokGood vsA "PEM-A"
    { mem := some "PEM-A", file := none, fetchCount := 0 } remoteBody
    (by decide) (by rfl) (by rfl) rfl rfl rfl

/-- C5: if the key is retrieved and `jwt.decode` raises
`ExpiredSignatureError` or `InvalidAudienceError`, `validate_token`
returns `None` with no forced key refresh (the key state is exactly the
one left by the single unforced retrieval) and no session-data call
(the remote-call count is unchanged). -/
theorem c5_expired_or_bad_audience_no_remote_call :
    ∀ (env : ValidateEnv) (tok : Tok) (vs : VState) (key : String)
      (ks1 : KeyState),
    tok.raw ≠ "" →
    getPublicKey env.keyEnv vs.ks false = (Except.ok key, ks1) →
    (jwtDecode tok key env.now env.audience = DecodeResult.expired ∨
     jwtDecode tok key env.now env.audience = DecodeResult.badAudience) →
    validateToken env tok vs
      = (none, { ks := ks1, remoteCalls := vs.remoteCalls }) := by
  intro env tok vs key ks1 hraw hget hdec
  rcases hdec with hdec | hdec <;>
    simp [validateToken, hraw, validateAttempt, hget, hdec]

/-- C5 witness: an expired token signed with the cached key is rejected
with the validator state untouched. -/
theorem c5_expired_or_bad_audience_no_remote_call_witness :
    validateToken envA tokExpired vsA
      = (none, { ks := { mem := some "PEM-A", file := none, fetchCount := 0 },
                 remoteCalls := 0 }) :=
  c5_expired_or_bad_audience_no_remote_call envA tokExpired vsA "PEM-A"
    { mem := some "PEM-A", file := none, fetchCount := 0 }
    (by decide) (by rfl) (Or.inl (by rfl))

/-- C4: when the local decode fails with a signature/decode error on the
first attempt, `validate_token` re-runs the whole verification exactly
once with a forced key refresh, and that forced retrieval performs
exactly one fetch attempt. Part 1: if the signature fails again under
the refreshed key, the result is `None`, with no further refresh and no
remote call. Part 2: if the token verifies under the freshly fetched
key and the remote lookup is healthy, validation succeeds after that
single forced refresh. -/
theorem c4_signature_failure_single_forced_retry :
    (∀ (env : ValidateEnv) (tok : Tok) (vs : VState) (key1 : String)
       (ks1 : KeyState) (key2 : String) (ks2 : KeyState),
     tok.raw ≠ "" →
     getPublicKey env.keyEnv vs.ks false = (Except.ok key1, ks1) →
     jwtDecode tok key1 env.now env.audience = DecodeResult.sigOrDecodeError →
     getPublicKey env.keyEnv ks1 true = (Except.ok key2, ks2) →
     jwtDecode tok key2 env.now env.audience = DecodeResult.sigOrDecodeError →
     validateToken env tok vs = (none, { ks := ks2, remoteCalls := vs.remoteCalls })
       ∧ ks2.fetchCount = ks1.fetchCount + 1)
  ∧ (∀ (env : ValidateEnv) (tok : Tok) (vs : VState) (key1 : String)
       (ks1 : KeyState) (key2 : String) (ks2 : KeyState) (d : SessionData),
     tok.raw ≠ "" →
     getPublicKey env.keyEnv vs.ks false = (Except.ok key1, ks1) →
     jwtDecode tok key1 env.now env.audience = DecodeResult.sigOrDecodeError →
     getPublicKey env.keyEnv ks1 true = (Except.ok key2, ks2) →
     jwtDecode tok key2 env.now env.audience = DecodeResult.ok →
     env.netOk = true → env.status = 200 → env.jsonBody = some d →
     validateToken env tok vs
         = (some (mergeClaims d tok.claims),
            { ks := ks2, remoteCalls := vs.remoteCalls + 1 })
       ∧ ks2.fetchCount = ks1.fetchCount + 1) := by
  constructor
  · intro env tok vs key1 ks1 key2 ks2 hraw hget1 hdec1 hget2 hdec2
    rw [getPublicKey_force] at hget2
    refine ⟨?_, (keyDownload_ok env.keyEnv ks1 key2 ks2 hget2).1⟩
    rw [← getPublicKey_force] at hget2
    simp [validateToken, hraw, validateAttempt, hget1, hdec1, hget2, hdec2]
  · intro env tok vs key1 ks1 key2 ks2 d hraw hget1 hdec1 hget2 hdec2
      hnet hstat hjson
    rw [getPublicKey_force] at hget2
    refine ⟨?_, (keyDownload_ok env.keyEnv ks1 key2 ks2 hget2).1⟩
    rw [← getPublicKey_force] at hget2
    simp [validateToken, hraw, validateAttempt, hget1, hdec1, hget2, hdec2,
          remoteStep, hnet, hstat, hjson]

/-- C4 witness: with `PEM-A` cached and the portal now serving `PEM-B`,
a forged token fails under both keys and is rejected after exactly one
forced fetch, while a token signed with the rotated key `PEM-B`
succeeds after the same single forced fetch. -/
theorem c4_signature_failure_single_forced_retry_witness :
    (validateToken envA tokForged vsA
        = (none, { ks := { mem := some "PEM-B", file := some "PEM-B",
                           fetchCount := 1 },
                   remoteCalls := 0 })
      ∧ (1 : Nat) = 0 + 1)
  ∧ (validateToken envA tokRotated vsA
        = (some (mergeClaims remoteBody tokRotated.claims),
           { ks := { mem := some "PEM-B", file := some "PEM-B",
                     fetchCount := 1 },
             remoteCalls := 1 })
      ∧ (1 : Nat) = 0 + 1) :=
  ⟨c4_signature_failure_single_forced_retry.1 envA tokForged vsA "PEM-A"
      { mem := some "PEM-A", file := none, fetchCount := 0 } "PEM-B"
      { mem := some "PEM-B", file := some "PEM-B", fetchCount := 1 }
      (by decide) (by rfl) (by rfl) (by rfl) (by rfl),
   c4_signature_failure_single_forced_retry.2 envA tokRotated vsA "PEM-A"
      { mem := some "PEM-A", file := none, fetchCount := 0 } "PEM-B"
      { mem := some "PEM-B", file := some "PEM-B", fetchCount := 1 }
      remoteBody
      (by decide) (by rfl) (by rfl) (by rfl) (by rfl) rfl rfl rfl⟩

/-- C2 counterexample: the claim says key unavailability is the one
failure that propagates out of token verification as a raised error
rather than being converted to `None`. Concretely, with no cached key
and a dead key endpoint, `get_public_key` does raise
(`Except.error ()`), but `validate_token` on the very same
configuration returns the ordinary `None` — the catch-all handler at
src/main.py:261 absorbs the raised `RuntimeError` like every other
failure, so nothing propagates out of token verification. -/
theorem c2_counterexample_key_unavailable_returns_none :
    (getPublicKey kenvBad { mem := none, file := none, fetchCount := 0 }
        false).1 = Except.error ()
      ∧ (validateToken envBad tokGood vsEmpty).1 = none := by
  constructor <;> rfl

/-- C2 (amended): when neither the cached key nor the remote fetch
succeeds, `get_public_key` raises the key-unavailability error, but
`validate_token`'s final catch-all converts it — like every other local
or remote verification failure — to `None`; no failure propagates out
of token verification. -/
theorem c2_amended_key_unavailable_absorbed :
    ∀ (env : ValidateEnv) (tok : Tok) (vs : VState),
    vs.ks.mem = none → vs.ks.file = none →
    env.keyEnv.fetchResult vs.ks.fetchCount = none →
    (getPublicKey env.keyEnv vs.ks false).1 = Except.error ()
      ∧ (validateToken env tok vs).1 = none := by
  intro env tok vs hmem hfile hfetch
  have hkey : getPublicKey env.keyEnv vs.ks false
      = (Except.error (),
         { vs.ks with fetchCount := vs.ks.fetchCount + 1 }) := by
    simp [getPublicKey, memTruthy, hmem, hfile, keyDownload, hfetch]
  refine ⟨by rw [hkey], ?_⟩
  by_cases hraw : tok.raw = ""
  · simp [validateToken, hraw]
  · simp [validateToken, hraw, validateAttempt, hkey]

/-- C2 (amended) witness: concrete dead-endpoint run. -/
theorem c2_amended_key_unavailable_absorbed_witness :
    (getPublicKey envBad.keyEnv vsEmpty.ks false).1 = Except.error ()
      ∧ (validateToken envBad tokGood vsEmpty).1 = none :=
  c2_amended_key_unavailable_absorbed envBad tokGood vsEmpty rfl rfl rfl

/-- C8: (1) after a successful network fetch `get_public_key` returns a
key byte-identical to the value written to the durable cache file;
(2) `invalidate_cache` clears the in-memory copy and deletes the cache
file, totally (a missing file is not an error) and without touching the
fetch counter; (3) `invalidate_cache` followed by `get_public_key`
serves no cached copy: it returns the freshly fetched key and performs
exactly one new network fetch. -/
theorem c8_key_cache_round_trip_and_invalidate :
    (∀ (env : KeyEnv) (st : KeyState) (k : String),
     env.writeCacheOk = true → st.mem = none → st.file = none →
     env.fetchResult st.fetchCount = some k →
     getPublicKey env st false
       = (Except.ok k, { mem := some k, file := some k,
                         fetchCount := st.fetchCount + 1 }))
  ∧ (∀ st : KeyState,
     (invalidateCache st).mem = none ∧ (invalidateCache st).file = none
       ∧ (invalidateCache st).fetchCount = st.fetchCount)
  ∧ (∀ (env : KeyEnv) (st : KeyState) (k : String),
     env.fetchResult st.fetchCount = some k →
     (getPublicKey env (invalidateCache st) false).1 = Except.ok k
       ∧ (getPublicKey env (invalidateCache st) false).2.fetchCount
           = st.fetchCount + 1) := by
  refine ⟨?_, ?_, ?_⟩
  · intro env st k hw hmem hfile hfetch
    simp [getPublicKey, memTruthy, hmem, hfile, keyDownload, hfetch, hw]
  · intro st
    cases st with
    | mk mem file fetchCount => cases file <;> simp [invalidateCache]
  · intro env st k hfetch
    have hinv : (invalidateCache st).mem = none ∧
        (invalidateCache st).file = none ∧
        (invalidateCache st).fetchCount = st.fetchCount := by
      cases st with
      | mk mem file fetchCount => cases file <;> simp [invalidateCache]
    obtain ⟨h1, h2, h3⟩ := hinv
    simp [getPublicKey, memTruthy, h1, h2, keyDownload, h3, hfetch]

/-- C8 witness: fetch `PEM-B`, find it byte-identical in the cache
file; invalidate a fully populated cache; re-fetch after invalidation
with exactly one new fetch. -/
theorem c8_key_cache_round_trip_and_invalidate_witness :
    (getPublicKey kenvA { mem := none, file := none, fetchCount := 0 } false
        = (Except.ok "PEM-B", { mem := some "PEM-B", file := some "PEM-B",
                                fetchCount := 1 }))
  ∧ ((invalidateCache { mem := some "PEM-A", file := some "PEM-A",
                        fetchCount := 5 }).mem = none
      ∧ (invalidateCache { mem := some "PEM-A", file := some "PEM-A",
                           fetchCount := 5 }).file = none
      ∧ (invalidateCache { mem := some "PEM-A", file := some "PEM-A",
                           fetchCount := 5 }).fetchCount = 5)
  ∧ ((getPublicKey kenvA (invalidateCache
          { mem := some "PEM-A", file := some "PEM-A", fetchCount := 5 })
        false).1 = Except.ok "PEM-B"
      ∧ (getPublicKey kenvA (invalidateCache
            { mem := some "PEM-A", file := some "PEM-A", fetchCount := 5 })
          false).2.fetchCount = 5 + 1) :=
  ⟨c8_key_cache_round_trip_and_invalidate.1 kenvA
      { mem := none, file := none, fetchCount := 0 } "PEM-B" rfl rfl rfl rfl,
   c8_key_cache_round_trip_and_invalidate.2.1
      { mem := some "PEM-A", file := some "PEM-A", fetchCount := 5 },
   c8_key_cache_round_trip_and_invalidate.2.2 kenvA
      { mem := some "PEM-A", file := some "PEM-A", fetchCount := 5 }
      "PEM-B" rfl⟩

/-- C7: `clear_session` cancels any refresh task and wipes the
connection's session state: afterwards `get_current_token` (and
`get_current_user`) return `None` and no refresh task is registered;
and clearing is idempotent and total, so clearing an already-empty
session (in particular twice in a row) is a no-op that cannot fail. -/
theorem c7_clear_session_wipes_and_idempotent :
    ∀ (c : Nat) (p : ProcState),
    getCurrentToken c (clearSession c p) = none
      ∧ getCurrentUser c (clearSession c p) = none
      ∧ (clearSession c p).taskAlive = none
      ∧ clearSession c (clearSession c p) = clearSession c p := by
  intro c p
  refine ⟨?_, ?_, ?_, ?_⟩ <;>
    cases htask : p.taskAlive <;>
      simp [clearSession, getCurrentToken, getCurrentUser, setStore,
            emptyStorage, htask, setStore_idem]

/-- C6: on a refresh-loop tick (no cancellation, storage readable):
an absent token ends the loop with the state untouched; a failed
refresh call clears the session and ends the loop; a refreshed token
that fails verification clears the session and ends the loop — in both
failure cases `get_current_user` returns `None` afterwards, and the
tick outcome `stop` means no retry or backoff ever follows. -/
theorem c6_refresh_tick_failure_is_terminal :
    (∀ (env : TickEnv) (c : Nat) (p : ProcState),
     env.cancelled = false → env.storageReadOk = true →
     getCurrentToken c p = none →
     refreshTick env c p = (TickOut.stop, p))
  ∧ (∀ (env : TickEnv) (c : Nat) (p : ProcState) (t : String),
     env.cancelled = false → env.storageReadOk = true →
     getCurrentToken c p = some t →
     env.refreshResult = none →
     refreshTick env c p = (TickOut.stop, clearSession c p)
       ∧ getCurrentUser c (refreshTick env c p).2 = none)
  ∧ (∀ (env : TickEnv) (c : Nat) (p : ProcState) (t nt : String),
     env.cancelled = false → env.storageReadOk = true →
     getCurrentToken c p = some t →
     env.refreshResult = some nt →
     env.validateResult = none →
     refreshTick env c p = (TickOut.stop, clearSession c p)
       ∧ getCurrentUser c (refreshTick env c p).2 = none) := by
  refine ⟨?_, ?_, ?_⟩
  · intro env c p hcanc hread htok
    simp [refreshTick, hcanc, hread, htok]
  · intro env c p t hcanc hread htok href
    have hmain : refreshTick env c p = (TickOut.stop, clearSession c p) := by
      simp [refreshTick, hcanc, hread, htok, href]
    refine ⟨hmain, ?_⟩
    rw [hmain]
    cases htask : p.taskAlive <;>
      simp [clearSession, getCurrentUser, setStore, emptyStorage, htask]
  · intro env c p t nt hcanc hread htok href hval
    have hmain : refreshTick env c p = (TickOut.stop, clearSession c p) := by
      simp [refreshTick, hcanc, hread, htok, href, hval]
    refine ⟨hmain, ?_⟩
    rw [hmain]
    cases htask : p.taskAlive <;>
      simp [clearSession, getCurrentUser, setStore, emptyStorage, htask]

/-- A process state with one active session for connection 0, as left
by a successful login. -/
def pActive : ProcState :=
  setSession 0 "tok-A" remoteBody "2025-01-10T00:00:00" procInit

/-- A tick on which the refresh call fails. -/
def tickRefreshFail : TickEnv :=
  { cancelled := false, storageReadOk := true, refreshResult := none,
    validateResult := none }

/-- A tick on which refresh succeeds but the new token fails
verification. -/
def tickVerifyFail : TickEnv :=
  { cancelled := false, storageReadOk := true,
    refreshResult := some "tok-new", validateResult := none }

/-- A tick on which reading the session storage raises. -/
def tickStorageCrash : TickEnv :=
  { cancelled := false, storageReadOk := false,
    refreshResult := some "tok-new", validateResult := some remoteBody }

/-- C6 witness: the three tick outcomes on concrete states — no token
(fresh process), refresh failure, and verification failure of the
refreshed token. -/
theorem c6_refresh_tick_failure_is_terminal_witness :
    refreshTick tickRefreshFail 1 procInit = (TickOut.stop, procInit)
  ∧ (refreshTick tickRefreshFail 0 pActive
        = (TickOut.stop, clearSession 0 pActive)
      ∧ getCurrentUser 0 (refreshTick tickRefreshFail 0 pActive).2 = none)
  ∧ (refreshTick tickVerifyFail 0 pActive
        = (TickOut.stop, clearSession 0 pActive)
      ∧ getCurrentUser 0 (refreshTick tickVerifyFail 0 pActive).2 = none) :=
  ⟨c6_refresh_tick_failure_is_terminal.1 tickRefreshFail 1 procInit
      rfl rfl rfl,
   c6_refresh_tick_failure_is_terminal.2.1 tickRefreshFail 0 pActive
      "tok-A" rfl rfl rfl rfl,
   c6_refresh_tick_failure_is_terminal.2.2 tickVerifyFail 0 pActive
      "tok-A" "tok-new" rfl rfl rfl rfl rfl⟩

/-- C9: if the refresh-loop body raises a non-cancellation exception
(modelled: reading the session storage fails), the loop stops without
clearing anything — the stored token and user data survive even though
the refresh task has finished. -/
theorem c9_refresh_loop_crash_stops_without_clearing :
    ∀ (env : TickEnv) (c : Nat) (p : ProcState),
    env.cancelled = false → env.storageReadOk = false →
    refreshTick env c p = (TickOut.stop, p)
      ∧ getCurrentToken c (refreshTick env c p).2 = getCurrentToken c p
      ∧ getCurrentUser c (refreshTick env c p).2 = getCurrentUser c p := by
  intro env c p hcanc hread
  have hmain : refreshTick env c p = (TickOut.stop, p) := by
    simp [refreshTick, hcanc, hread]
  exact ⟨hmain, by rw [hmain], by rw [hmain]⟩

/-- C9 witness: a storage-read failure on a live session stops the loop
and leaves the token and user data in place. -/
theorem c9_refresh_loop_crash_stops_without_clearing_witness :
    refreshTick tickStorageCrash 0 pActive = (TickOut.stop, pActive)
      ∧ getCurrentToken 0 (refreshTick tickStorageCrash 0 pActive).2
          = getCurrentToken 0 pActive
      ∧ getCurrentUser 0 (refreshTick tickStorageCrash 0 pActive).2
          = getCurrentUser 0 pActive :=
  c9_refresh_loop_crash_stops_without_clearing tickStorageCrash 0 pActive
    rfl rfl

/-- C3 counterexample: the claim says each logical client connection
owns its own independent RefreshTask and that session/refresh-task
state is not process-global. But `session_manager` (src/main.py:434-435)
is a single module-level instance whose one `_refresh_task` slot is
shared by all connections: after connection 0 logs in (task 0) and
connection 1 logs in (task 1), connection 0's session is still active,
yet its refresh task has been cancelled by connection 1's
`set_session` — only one refresh task is live for two active
sessions. -/
theorem c3_counterexample_shared_refresh_task :
    (setSession 0 "tok-A" remoteBody "t0" procInit).taskAlive = some 0
  ∧ (setSession 1 "tok-B" remoteBody "t1"
      (setSession 0 "tok-A" remoteBody "t0" procInit)).taskAlive = some 1
  ∧ (setSession 1 "tok-B" remoteBody "t1"
      (setSession 0 "tok-A" remoteBody "t0" procInit)).cancelledTasks = [0]
  ∧ getCurrentToken 0 (setSession 1 "tok-B" remoteBody "t1"
      (setSession 0 "tok-A" remoteBody "t0" procInit)) = some "tok-A"
  ∧ getCurrentToken 1 (setSession 1 "tok-B" remoteBody "t1"
      (setSession 0 "tok-A" remoteBody "t0" procInit)) = some "tok-B" :=
  ⟨rfl, rfl, rfl, rfl, rfl⟩

/-- C3 (amended): `set_session` cancels any pre-existing refresh task
before starting a new one, so at most one refresh task is live at any
time — but that task lives in the single process-global
`SessionManager`'s `_refresh_task` slot shared by all connections: a
`set_session` from any connection cancels the task started for any
other, while only the `app.storage.user` session data is
per-connection. -/
theorem c3_amended_refresh_task_process_global :
    ∀ (c1 c2 : Nat) (t1 t2 : String) (u1 u2 : SessionData)
      (l1 l2 : String) (p : ProcState),
    (setSession c1 t1 u1 l1 p).taskAlive = some p.nextTask
  ∧ (setSession c2 t2 u2 l2 (setSession c1 t1 u1 l1 p)).taskAlive
      = some (p.nextTask + 1)
  ∧ p.nextTask ∈ (setSession c2 t2 u2 l2
      (setSession c1 t1 u1 l1 p)).cancelledTasks
  ∧ (c1 ≠ c2 → getCurrentToken c1 (setSession c2 t2 u2 l2
      (setSession c1 t1 u1 l1 p)) = some t1) := by
  intro c1 c2 t1 t2 u1 u2 l1 l2 p
  cases htask : p.taskAlive <;>
    exact ⟨by simp [setSession, startTokenRefresh, htask],
           by simp [setSession, startTokenRefresh, htask],
           by simp [setSession, startTokenRefresh, htask],
           fun hne => by
             simp [setSession, startTokenRefresh, getCurrentToken,
                   setStore, htask, hne]⟩

/-- C3 (amended) witness: the two-login scenario with connections 0
and 1. -/
theorem c3_amended_refresh_task_process_global_witness :
    (setSession 0 "tok-A" remoteBody "t0" procInit).taskAlive = some 0
  ∧ (setSession 1 "tok-B" remoteBody "t1"
      (setSession 0 "tok-A" remoteBody "t0" procInit)).taskAlive = some 1
  ∧ (0 : Nat) ∈ (setSession 1 "tok-B" remoteBody "t1"
      (setSession 0 "tok-A" remoteBody "t0" procInit)).cancelledTasks
  ∧ ((0 : Nat) ≠ 1 → getCurrentToken 0 (setSession 1 "tok-B" remoteBody "t1"
      (setSession 0 "tok-A" remoteBody "t0" procInit)) = some "tok-A") :=
  c3_amended_refresh_task_process_global 0 1 "tok-A" "tok-B"
    remoteBody remoteBody "t0" "t1" procInit

end SSODemo
